import Mathlib

/-!
Shallow embedding of the only source file of the repository,
`src/lib/dojo/useSystemCalls.ts`, which contains the `useSystemCalls`
hook (createRound / joinRound / startRound with optimistic updates) and
the `ChallengeModal` component (round display and join gating).

Modelling conventions:
- JS BigInt values (round ids, timestamps, Starknet addresses after the
  code converts them with `BigInt(...)`) are modelled as `Int`.
- JS `number` arithmetic in the display helpers is modelled exactly over
  `Rat`; IEEE-754 rounding of the browser runtime is abstracted away.
- JS error values are opaque to this file (they are only caught and
  rethrown); we model them as strings.
- Asynchronous remote calls (`client.actions.*`) are external; each one
  is a parameter of type `Except JsError _` giving its outcome, and the
  hook bodies are modelled as functions from those outcomes to the list
  of store operations they perform plus the returned/thrown value.
-/

/-- JS error values, treated opaquely (the code only logs and rethrows
them). -/
abbrev JsError := String

/-- A connected Starknet account as seen by the hook; the address is
modelled by its integer value (the code converts the address string with
`BigInt(account.address)` wherever it is used as a key, and we also use
the integer for the `creator` fields). -/
structure Account where
  address : ℤ
deriving DecidableEq

/-- Modelled from the spec: `getEntityIdFromKeys` comes from the
external `@dojoengine/utils` package (not part of this repository); per
the spec it generates "deterministic entity identifiers from
account/round keys". We model the identifier as the key list itself,
which preserves the two properties relied upon: determinism, and
distinct key lists yielding distinct identifiers. -/
def getEntityIdFromKeys (keys : List ℤ) : List ℤ := keys

/-- Entity identifiers produced by `getEntityIdFromKeys`. -/
abbrev EntityId := List ℤ

/-- The `round` record written inside the optimistic `Rounds` model in
`createRound` (creator, genre, wager_amount, start_time, state,
end_time, next_card_index, players_count, ready_players_count). -/
structure Round where
  creator : ℤ
  genre : String
  wager_amount : ℤ
  start_time : ℤ
  state : ℤ
  end_time : ℤ
  next_card_index : ℤ
  players_count : ℤ
  ready_players_count : ℤ
deriving DecidableEq

/-- The `lyricsflip.Rounds` model: round_id plus the nested round
record. -/
structure RoundsModel where
  round_id : ℤ
  round : Round
deriving DecidableEq

/-- The `lyricsflip.RoundPlayer` model written by `joinRound`:
`player_to_round_id` is the `[account.address, roundId]` pair, plus the
joined/ready flags. -/
structure RoundPlayerModel where
  player_to_round_id : ℤ × ℤ
  joined : Bool
  ready_state : Bool
deriving DecidableEq

/-- The `lyricsflip.RoundCreated` event model written by `createRound`:
round_id and creator. -/
structure RoundCreatedModel where
  round_id : ℤ
  creator : ℤ
deriving DecidableEq

/-- The `models.lyricsflip` namespace of a draft entity, flattened: each
entity written by this file carries at most these three models. -/
structure Models where
  Rounds : Option RoundsModel
  RoundPlayer : Option RoundPlayerModel
  RoundCreated : Option RoundCreatedModel
deriving DecidableEq

/-- A draft entity: `entityId` plus its models, exactly the object shape
the optimistic callbacks write into `draft.entities[...]`. -/
structure Entity where
  entityId : EntityId
  models : Models
deriving DecidableEq

/-- The `draft.entities` map of the Dojo store, as a partial map from
entity ids to entities. -/
def Store := EntityId → Option Entity

/-- A store with no entities. -/
def emptyStore : Store := fun _ => none

/-- ChallengeModal `formatWagerAmount`: `Number(BigInt(amount)) / 1e18`,
modelled exactly over the rationals. -/
def formatWagerAmount (amount : ℤ) : ℚ :=
  (amount : ℚ) / 1000000000000000000

/-- ChallengeModal `calculatePayout`:
`(Number(BigInt(wagerAmount)) * maxPlayers) / 1e18`; the TS declaration
gives `maxPlayers` the default value 6 and the one call site in the
component uses that default. -/
def calculatePayout (wagerAmount : ℤ) (maxPlayers : ℚ) : ℚ :=
  ((wagerAmount : ℚ) * maxPlayers) / 1000000000000000000

/-- The status text/color record returned by `getRoundStatus`. -/
structure RoundStatus where
  text : String
  color : String
deriving DecidableEq

/-- ChallengeModal `getRoundStatus`: a switch on
`Number(BigInt(state))` with cases 0, 1, 2 and a default. -/
def getRoundStatus (state : ℤ) : RoundStatus :=
  if state = 0 then { text := "Waiting for players", color := "text-green-500" }
  else if state = 1 then { text := "In progress", color := "text-yellow-500" }
  else if state = 2 then { text := "Ended", color := "text-red-500" }
  else { text := "Unknown", color := "text-gray-500" }

/-- The `disabled` condition of the Join button in ChallengeModal:
`isLoading || isPlayer || Number(BigInt(round.round.state)) !== 0`. -/
def joinButtonDisabled (isLoading isPlayer : Bool) (roundState : ℤ) : Bool :=
  isLoading || isPlayer || (roundState != 0)

/-- The optimistic callback of `createRound` (steps 5 of the TS code):
if no entity exists under the Rounds entity id derived from the fetched
round id, write the optimistic Rounds entity (state 0, players_count 1,
start_time from one `Date.now()` reading `nowStart`); then, if no entity
exists under the event entity id derived from the round id and a second
`Date.now()` reading `nowEvent`, write the RoundCreated event entity. -/
def createRoundUpdate (creator : ℤ) (genreVariant : String)
    (actualRoundId nowStart nowEvent : ℤ) (draft : Store) : Store :=
  let roundsEntityId := getEntityIdFromKeys [actualRoundId]
  let d1 : Store :=
    match draft roundsEntityId with
    | some _ => draft
    | none => fun k =>
        if k = roundsEntityId then
          some { entityId := roundsEntityId,
                 models :=
                   { Rounds := some
                       { round_id := actualRoundId,
                         round :=
                           { creator := creator, genre := genreVariant,
                             wager_amount := 0, start_time := nowStart,
                             state := 0, end_time := 0, next_card_index := 0,
                             players_count := 1, ready_players_count := 0 } },
                     RoundPlayer := none, RoundCreated := none } }
        else draft k
  let eventEntityId := getEntityIdFromKeys [actualRoundId, nowEvent]
  match d1 eventEntityId with
  | some _ => d1
  | none => fun k =>
      if k = eventEntityId then
        some { entityId := eventEntityId,
               models :=
                 { Rounds := none, RoundPlayer := none,
                   RoundCreated := some
                     { round_id := actualRoundId, creator := creator } } }
      else d1 k

/-- The optimistic callback of `joinRound`: if no entity exists under
`entityId` (which the hook computes as
`getEntityIdFromKeys([BigInt(account.address)])`), write the optimistic
RoundPlayer entity with `player_to_round_id = [address, roundId]`,
`joined = true`, `ready_state = false`. -/
def joinRoundUpdate (address roundId : ℤ) (entityId : EntityId)
    (draft : Store) : Store :=
  match draft entityId with
  | some _ => draft
  | none => fun k =>
      if k = entityId then
        some { entityId := entityId,
               models :=
                 { Rounds := none,
                   RoundPlayer := some
                     { player_to_round_id := (address, roundId),
                       joined := true, ready_state := false },
                   RoundCreated := none } }
      else draft k

/-- The optimistic callback of `startRound`: if the entity keyed by the
round id exists and carries a `lyricsflip.Rounds` model, set its round
state to 1 (STARTED) and its start_time to the `Date.now()` reading;
otherwise leave the draft untouched. -/
def startRoundUpdate (roundId now : ℤ) (draft : Store) : Store :=
  let roundsEntityId := getEntityIdFromKeys [roundId]
  match draft roundsEntityId with
  | none => draft
  | some e =>
    match e.models.Rounds with
    | none => draft
    | some rm =>
      let newRound := { rm.round with state := 1, start_time := now }
      let newModels :=
        { e.models with Rounds := some { rm with round := newRound } }
      fun k =>
        if k = roundsEntityId then some { e with models := newModels }
        else draft k

/-- One observable operation performed by a hook execution: a remote
client action, or one of the three store calls. -/
inductive Op where
  | remoteCreateRound (address : ℤ) (genreVariant : String)
  | remoteGetRoundId
  | remoteJoinRound (address roundId : ℤ)
  | remoteStartRound (address roundId : ℤ)
  | applyOptimisticUpdate (transactionId : String) (upd : Store → Store)
  | revertOptimisticUpdate (transactionId : String)
  | confirmTransaction (transactionId : String)

/-- Recognizer for `confirmTransaction` calls with a given transaction
id. -/
def Op.isConfirm (tid : String) : Op → Bool
  | .confirmTransaction t => t == tid
  | _ => false

/-- Recognizer for `revertOptimisticUpdate` calls with a given
transaction id. -/
def Op.isRevert (tid : String) : Op → Bool
  | .revertOptimisticUpdate t => t == tid
  | _ => false

/-- Recognizer for `applyOptimisticUpdate` calls with a given
transaction id. -/
def Op.isApply (tid : String) : Op → Bool
  | .applyOptimisticUpdate t _ => t == tid
  | _ => false

/-- Recognizer for remote client actions. -/
def Op.isRemote : Op → Bool
  | .remoteCreateRound _ _ => true
  | .remoteGetRoundId => true
  | .remoteJoinRound _ _ => true
  | .remoteStartRound _ _ => true
  | _ => false

/-- The `createRound` hook as a function from the outcomes of its two
remote calls to its operation trace and its result. Control flow of the
TS code: a null account throws before the transaction id is generated;
inside the try block it runs `client.actions.createRound`, waits, runs
`client.actions.getRoundId`, extracts the id (extraction failures are
folded into `getRoundIdCall`), applies the optimistic update and
returns the id; the catch block reverts and rethrows; the finally block
confirms. `nowStart`/`nowEvent` are the two `Date.now()` readings inside
the callback. -/
def createRound (account : Option Account) (genreVariant : String)
    (transactionId : String) (nowStart nowEvent : ℤ)
    (createCall : Except JsError Unit) (getRoundIdCall : Except JsError ℤ) :
    List Op × Except JsError ℤ :=
  match account with
  | none => ([], .error "Account not available")
  | some a =>
    match createCall with
    | .error e =>
        ([.remoteCreateRound a.address genreVariant,
          .revertOptimisticUpdate transactionId,
          .confirmTransaction transactionId], .error e)
    | .ok _ =>
      match getRoundIdCall with
      | .error e =>
          ([.remoteCreateRound a.address genreVariant, .remoteGetRoundId,
            .revertOptimisticUpdate transactionId,
            .confirmTransaction transactionId], .error e)
      | .ok actualRoundId =>
          ([.remoteCreateRound a.address genreVariant, .remoteGetRoundId,
            .applyOptimisticUpdate transactionId
              (createRoundUpdate a.address genreVariant actualRoundId
                nowStart nowEvent),
            .confirmTransaction transactionId], .ok actualRoundId)

/-- The `joinRound` hook: a null account throws first; otherwise the
optimistic update is applied before the try block, then
`client.actions.joinRound` runs; the catch block reverts and rethrows;
the finally block confirms. -/
def joinRound (account : Option Account) (roundId : ℤ)
    (transactionId : String) (joinCall : Except JsError Unit) :
    List Op × Except JsError Unit :=
  match account with
  | none => ([], .error "Account not available")
  | some a =>
    let entityId := getEntityIdFromKeys [a.address]
    let applyOp := Op.applyOptimisticUpdate transactionId
      (joinRoundUpdate a.address roundId entityId)
    match joinCall with
    | .ok _ =>
        ([applyOp, .remoteJoinRound a.address roundId,
          .confirmTransaction transactionId], .ok ())
    | .error e =>
        ([applyOp, .remoteJoinRound a.address roundId,
          .revertOptimisticUpdate transactionId,
          .confirmTransaction transactionId], .error e)

/-- The `startRound` hook: a null account throws first; otherwise the
optimistic update is applied before the try block, then
`client.actions.startRound` runs; the catch block reverts and rethrows;
the finally block confirms. -/
def startRound (account : Option Account) (roundId : ℤ)
    (transactionId : String) (now : ℤ) (startCall : Except JsError Unit) :
    List Op × Except JsError Unit :=
  match account with
  | none => ([], .error "Account not available")
  | some a =>
    let applyOp := Op.applyOptimisticUpdate transactionId
      (startRoundUpdate roundId now)
    match startCall with
    | .ok _ =>
        ([applyOp, .remoteStartRound a.address roundId,
          .confirmTransaction transactionId], .ok ())
    | .error e =>
        ([applyOp, .remoteStartRound a.address roundId,
          .revertOptimisticUpdate transactionId,
          .confirmTransaction transactionId], .error e)

/-- Modelled from the spec: the optimistic-update store of the external
SDK (spec section 4: before/after a remote action, a local draft copy of
entity state is patched; on failure the patch is reverted; in all cases
the pending transaction marker is cleared). The state is the entity map
plus the pending transactions, each remembering the store as it was
before its patch. -/
structure OptState where
  store : Store
  pending : List (String × Store)

/-- Lookup of a pending transaction by its id. -/
def lookupPending (tid : String) : List (String × Store) → Option Store
  | [] => none
  | (t, s) :: rest => if t = tid then some s else lookupPending tid rest

/-- Removal of a pending transaction marker. -/
def removePending (tid : String) (l : List (String × Store)) :
    List (String × Store) :=
  l.filter (fun p => p.1 != tid)

/-- Modelled from the spec: the effect of one operation on the SDK
store. applyOptimisticUpdate patches the draft and registers the
transaction as pending; revertOptimisticUpdate restores the pre-patch
store if the transaction is pending, and is a no-op for a transaction id
under which no update was registered; confirmTransaction clears the
pending marker; remote calls do not touch the local store. -/
def execOp (st : OptState) : Op → OptState
  | .applyOptimisticUpdate tid upd =>
      { store := upd st.store, pending := (tid, st.store) :: st.pending }
  | .revertOptimisticUpdate tid =>
      match lookupPending tid st.pending with
      | some s => { store := s, pending := removePending tid st.pending }
      | none => st
  | .confirmTransaction tid =>
      { store := st.store, pending := removePending tid st.pending }
  | _ => st

/-- Execution of a whole operation trace against the SDK store. -/
def execOps (ops : List Op) (st : OptState) : OptState :=
  ops.foldl execOp st

/-- The entity written when a round with Rounds model `rm` inside entity
`ent` is started at time `now`: only the round state (set to 1) and the
round start_time change; every other field of the entity is kept. -/
def startedEntity (now : ℤ) (ent : Entity) (rm : RoundsModel) : Entity :=
  { ent with models := { ent.models with Rounds := some { rm with round := { rm.round with state := 1, start_time := now } } } }

/-- A sample round record used to instantiate frame theorems at a
concrete store. -/
def sampleRound : Round :=
  { creator := 9, genre := "Pop", wager_amount := 100, start_time := 0,
    state := 0, end_time := 0, next_card_index := 2, players_count := 3,
    ready_players_count := 1 }

/-- A sample entity holding a Rounds model under round id 7. -/
def sampleEntity : Entity :=
  { entityId := getEntityIdFromKeys [7],
    models := { Rounds := some { round_id := 7, round := sampleRound },
                RoundPlayer := none, RoundCreated := none } }

/-- A sample store holding exactly the sample entity. -/
def sampleStore : Store :=
  fun k => if k = getEntityIdFromKeys [7] then some sampleEntity else none

/-- C8: getRoundStatus returns the waiting text exactly for state 0, the
in-progress text exactly for state 1, the ended text exactly for state
2, and the Unknown fallback for every other integer state code; it is a
total function on ℤ by construction. -/
theorem getRoundStatus_characterization (s : ℤ) :
    ((getRoundStatus s).text = "Waiting for players" ↔ s = 0)
    ∧ ((getRoundStatus s).text = "In progress" ↔ s = 1)
    ∧ ((getRoundStatus s).text = "Ended" ↔ s = 2)
    ∧ (s ≠ 0 → s ≠ 1 → s ≠ 2 → (getRoundStatus s).text = "Unknown") := by
  by_cases h0 : s = 0
  · subst h0; refine ⟨by simp [getRoundStatus], ?_, ?_, ?_⟩ <;>
      simp [getRoundStatus]
  · by_cases h1 : s = 1
    · subst h1; refine ⟨?_, ?_, ?_, ?_⟩ <;> simp [getRoundStatus]
    · by_cases h2 : s = 2
      · subst h2; refine ⟨?_, ?_, ?_, ?_⟩ <;> simp [getRoundStatus]
      · refine ⟨?_, ?_, ?_, ?_⟩ <;> simp [getRoundStatus, h0, h1, h2]

/-- Witness for C8 at concrete state codes: state 5 falls through to
the Unknown fallback, and state 0 yields the waiting text. -/
theorem getRoundStatus_characterization_witness :
    (getRoundStatus 5).text = "Unknown"
    ∧ (getRoundStatus 0).text = "Waiting for players" :=
  ⟨(getRoundStatus_characterization 5).2.2.2 (by decide) (by decide) (by decide),
   (getRoundStatus_characterization 0).1.mpr rfl⟩

/-- C7: formatWagerAmount divides the token amount by the fixed divisor
10^18 (exact rational semantics of the JS computation). -/
theorem formatWagerAmount_divisor (a : ℤ) :
    formatWagerAmount a = (a : ℚ) / 10 ^ 18 := by
  norm_num [formatWagerAmount]

/-- C6: the displayed payout is the wager times the max-players count:
calculatePayout w n = n * formatWagerAmount w for every wager w and
player count n, and at the TS default argument 6 the payout is 6 times
the formatted wager. -/
theorem calculatePayout_eq_players_mul_wager (w : ℤ) (n : ℚ) :
    calculatePayout w n = n * formatWagerAmount w
    ∧ calculatePayout w 6 = 6 * formatWagerAmount w := by
  constructor <;> · unfold calculatePayout formatWagerAmount; ring

/-- C3: if the ChallengeModal Join button is enabled (not disabled) then
the round state is 0 and the user is not already a participant; and
whenever the state is nonzero or the user is a participant, the button
is disabled. -/
theorem joinButton_gating (l p : Bool) (s : ℤ) :
    (joinButtonDisabled l p s = false → p = false ∧ s = 0)
    ∧ ((p = true ∨ s ≠ 0) → joinButtonDisabled l p s = true) := by
  constructor
  · intro h
    cases l <;> cases p <;> simp_all [joinButtonDisabled]
  · intro h
    rcases h with h | h <;> cases l <;> cases p <;>
      simp_all [joinButtonDisabled]

/-- Witness for C3 at concrete inputs: an already-joined player has the
button disabled even in state 0, and a nonzero state disables it for a
non-participant. -/
theorem joinButton_gating_witness :
    joinButtonDisabled false true 0 = true
    ∧ joinButtonDisabled false false 3 = true :=
  ⟨(joinButton_gating false true 0).2 (Or.inl rfl),
   (joinButton_gating false false 3).2 (Or.inr (by decide))⟩

/-- C1: for each of createRound (either remote call failing), joinRound
and startRound with a connected account, a remote failure with error e
makes the operation revert the optimistic update registered under its
transaction id (exactly one revertOptimisticUpdate with that id appears
in the trace) and rethrow the very same error e; no retry is attempted
(each remote action appears exactly once in the trace, so the failing
call is never re-issued). -/
theorem remoteFailure_reverts_and_rethrows (a : Account) (gv tid : String)
    (ns ne roundId now : ℤ) (e : JsError) (gr : Except JsError ℤ) :
    ((createRound (some a) gv tid ns ne (.error e) gr).2 = .error e
      ∧ (createRound (some a) gv tid ns ne (.error e) gr).1.countP (Op.isRevert tid) = 1
      ∧ (createRound (some a) gv tid ns ne (.error e) gr).1.countP Op.isRemote = 1)
    ∧ ((createRound (some a) gv tid ns ne (.ok ()) (.error e)).2 = .error e
      ∧ (createRound (some a) gv tid ns ne (.ok ()) (.error e)).1.countP (Op.isRevert tid) = 1
      ∧ (createRound (some a) gv tid ns ne (.ok ()) (.error e)).1.countP Op.isRemote = 2)
    ∧ ((joinRound (some a) roundId tid (.error e)).2 = .error e
      ∧ (joinRound (some a) roundId tid (.error e)).1.countP (Op.isRevert tid) = 1
      ∧ (joinRound (some a) roundId tid (.error e)).1.countP Op.isRemote = 1)
    ∧ ((startRound (some a) roundId tid now (.error e)).2 = .error e
      ∧ (startRound (some a) roundId tid now (.error e)).1.countP (Op.isRevert tid) = 1
      ∧ (startRound (some a) roundId tid now (.error e)).1.countP Op.isRemote = 1) := by
  refine ⟨⟨rfl, ?_, ?_⟩, ⟨rfl, ?_, ?_⟩, ⟨rfl, ?_, ?_⟩, ⟨rfl, ?_, ?_⟩⟩ <;>
    simp [createRound, joinRound, startRound, List.countP_cons,
      Op.isRevert, Op.isRemote]

/-- C2 counterexample: with no connected account, createRound terminates
by a thrown error before a transaction id is generated, and that
termination path performs no confirmTransaction call at all (its trace
is empty). -/
theorem nullAccount_terminates_without_confirm :
    (createRound none "Pop" "t1" 0 0 (.ok ()) (.ok 1)).1.countP (Op.isConfirm "t1") = 0
    ∧ (createRound none "Pop" "t1" 0 0 (.ok ()) (.ok 1)).1 = []
    ∧ (createRound none "Pop" "t1" 0 0 (.ok ()) (.ok 1)).2 = .error "Account not available" :=
  ⟨rfl, rfl, rfl⟩

/-- C2 amended: whenever the account is available, every execution of
createRound, joinRound or startRound calls confirmTransaction exactly
once with the transaction id of the operation, on every termination path
(normal return or thrown error, for every outcome of the remote
calls). -/
theorem confirmTransaction_exactly_once (a : Account) (gv tid : String)
    (ns ne roundId now : ℤ) (cc jc sc : Except JsError Unit)
    (gr : Except JsError ℤ) :
    (createRound (some a) gv tid ns ne cc gr).1.countP (Op.isConfirm tid) = 1
    ∧ (joinRound (some a) roundId tid jc).1.countP (Op.isConfirm tid) = 1
    ∧ (startRound (some a) roundId tid now sc).1.countP (Op.isConfirm tid) = 1 := by
  rcases cc with e1 | u1 <;> rcases gr with e2 | rid <;>
    rcases jc with e3 | u3 <;> rcases sc with e4 | u4 <;>
      simp [createRound, joinRound, startRound, List.countP_cons, Op.isConfirm]

/-- C9: when createRound fails (first remote call failing, or the
round-id fetch/extraction failing), its trace contains no
applyOptimisticUpdate for its transaction id, executing the trace
against the SDK store leaves the store (with no pending transaction)
entirely unchanged, and the single revertOptimisticUpdate in the trace
therefore targets a transaction id under which no update was ever
applied; on success the trace applies the optimistic patch only after
both remote calls, in the order remote create, remote round-id fetch,
patch, confirm. -/
theorem createRound_failure_leaves_store_unchanged (a : Account)
    (gv tid : String) (ns ne rid : ℤ) (e : JsError)
    (gr : Except JsError ℤ) (s : Store) :
    ((createRound (some a) gv tid ns ne (.error e) gr).1.countP (Op.isApply tid) = 0
      ∧ execOps (createRound (some a) gv tid ns ne (.error e) gr).1
          { store := s, pending := [] } = { store := s, pending := [] }
      ∧ (createRound (some a) gv tid ns ne (.error e) gr).1.countP (Op.isRevert tid) = 1)
    ∧ ((createRound (some a) gv tid ns ne (.ok ()) (.error e)).1.countP (Op.isApply tid) = 0
      ∧ execOps (createRound (some a) gv tid ns ne (.ok ()) (.error e)).1
          { store := s, pending := [] } = { store := s, pending := [] }
      ∧ (createRound (some a) gv tid ns ne (.ok ()) (.error e)).1.countP (Op.isRevert tid) = 1)
    ∧ (createRound (some a) gv tid ns ne (.ok ()) (.ok rid)).1
        = [.remoteCreateRound a.address gv, .remoteGetRoundId,
           .applyOptimisticUpdate tid (createRoundUpdate a.address gv rid ns ne),
           .confirmTransaction tid] := by
  refine ⟨⟨?_, ?_, ?_⟩, ⟨?_, ?_, ?_⟩, rfl⟩ <;>
    simp [createRound, List.countP_cons, Op.isApply, Op.isRevert,
      execOps, execOp, lookupPending, removePending]

/-- C5: on a successful createRound (round id rid fetched from the
contract), the trace applies the optimistic patch, the call returns rid,
and the patch writes the RoundCreated event entity recording rid and the
creator address under the entity id derived from the round id together
with the creation timestamp; ids derived from distinct timestamps are
distinct, making the event key unique per creation. -/
theorem createRound_success_writes_event (a : Account) (gv tid : String)
    (ns ne rid : ℤ) (draft : Store)
    (h : draft (getEntityIdFromKeys [rid, ne]) = none) :
    Op.applyOptimisticUpdate tid (createRoundUpdate a.address gv rid ns ne)
        ∈ (createRound (some a) gv tid ns ne (.ok ()) (.ok rid)).1
    ∧ (createRound (some a) gv tid ns ne (.ok ()) (.ok rid)).2 = .ok rid
    ∧ createRoundUpdate a.address gv rid ns ne draft (getEntityIdFromKeys [rid, ne])
        = some { entityId := getEntityIdFromKeys [rid, ne],
                 models := { Rounds := none, RoundPlayer := none,
                             RoundCreated := some { round_id := rid, creator := a.address } } }
    ∧ (∀ t u : ℤ, t ≠ u →
        getEntityIdFromKeys [rid, t] ≠ getEntityIdFromKeys [rid, u]) := by
  refine ⟨by simp [createRound], rfl, ?_, ?_⟩
  · have h2 : draft [rid, ne] = none := h
    unfold createRoundUpdate
    rcases hd : draft ([rid] : List ℤ) with _ | ent <;>
      simp [hd, h2, getEntityIdFromKeys]
  · intro t u htu
    simp [getEntityIdFromKeys, htu]

/-- Witness for C5 at concrete inputs: creator address 1, round id 2,
timestamps 3 and 4, empty draft. -/
theorem createRound_success_writes_event_witness :
    createRoundUpdate 1 "Pop" 2 3 4 emptyStore (getEntityIdFromKeys [2, 4])
      = some { entityId := getEntityIdFromKeys [2, 4],
               models := { Rounds := none, RoundPlayer := none,
                           RoundCreated := some { round_id := 2, creator := 1 } } }
    ∧ getEntityIdFromKeys [2, 3] ≠ getEntityIdFromKeys [2, 4] :=
  ⟨(createRound_success_writes_event ⟨1⟩ "Pop" "t" 3 4 2 emptyStore rfl).2.2.1,
   (createRound_success_writes_event ⟨1⟩ "Pop" "t" 3 4 2 emptyStore rfl).2.2.2 3 4 (by decide)⟩

/-- C4 counterexample: the entity id joinRound writes under is computed
as getEntityIdFromKeys of the account address alone, so for player
address 1 joining round 5 nothing is stored under the id derived from
the (address, round id) pair, the RoundPlayer entity lands under the id
derived from the address only, and a subsequent join of a different
round 6 targets the same slot and changes nothing (the slot is already
occupied), leaving player_to_round_id at (1, 5). -/
theorem joinRound_entityId_ignores_roundId :
    joinRoundUpdate 1 5 (getEntityIdFromKeys [1]) emptyStore (getEntityIdFromKeys [1, 5]) = none
    ∧ joinRoundUpdate 1 5 (getEntityIdFromKeys [1]) emptyStore (getEntityIdFromKeys [1])
        = some { entityId := getEntityIdFromKeys [1],
                 models := { Rounds := none,
                             RoundPlayer := some { player_to_round_id := (1, 5),
                                                   joined := true, ready_state := false },
                             RoundCreated := none } }
    ∧ joinRoundUpdate 1 6 (getEntityIdFromKeys [1])
        (joinRoundUpdate 1 5 (getEntityIdFromKeys [1]) emptyStore)
      = joinRoundUpdate 1 5 (getEntityIdFromKeys [1]) emptyStore := by
  refine ⟨?_, ?_, ?_⟩ <;> rfl

/-- C4 amended: for every joinRound call with a connected account, the
optimistic RoundPlayer entity is written under the entity id derived
from the player address alone (the round id is not part of the key),
and its model records player_to_round_id = (player address, round id),
joined = true and ready_state = false. -/
theorem joinRound_optimistic_roundPlayer (a : Account) (roundId : ℤ)
    (tid : String) (jc : Except JsError Unit) (draft : Store)
    (h : draft (getEntityIdFromKeys [a.address]) = none) :
    Op.applyOptimisticUpdate tid
        (joinRoundUpdate a.address roundId (getEntityIdFromKeys [a.address]))
      ∈ (joinRound (some a) roundId tid jc).1
    ∧ joinRoundUpdate a.address roundId (getEntityIdFromKeys [a.address]) draft
        (getEntityIdFromKeys [a.address])
      = some { entityId := getEntityIdFromKeys [a.address],
               models := { Rounds := none,
                           RoundPlayer := some { player_to_round_id := (a.address, roundId),
                                                 joined := true, ready_state := false },
                           RoundCreated := none } } := by
  constructor
  · rcases jc with e1 | u1 <;> simp [joinRound]
  · unfold joinRoundUpdate
    simp [h]

/-- Witness for the amended C4 at concrete inputs: player address 1
joining round 5 on an empty draft. -/
theorem joinRound_optimistic_roundPlayer_witness :
    joinRoundUpdate 1 5 (getEntityIdFromKeys [1]) emptyStore (getEntityIdFromKeys [1])
      = some { entityId := getEntityIdFromKeys [1],
               models := { Rounds := none,
                           RoundPlayer := some { player_to_round_id := (1, 5),
                                                 joined := true, ready_state := false },
                           RoundCreated := none } } :=
  (joinRound_optimistic_roundPlayer ⟨1⟩ 5 "t" (.ok ()) emptyStore rfl).2

/-- C10: the optimistic update of startRound touches nothing outside the
entity keyed by the round id; if no entity exists under that key, or the
entity carries no Rounds model, the draft is entirely unchanged; and
when the entity carries a Rounds model, the entity is replaced by
startedEntity, which changes exactly the round state (to 1) and the
round start_time and keeps every other field and model. -/
theorem startRoundUpdate_frame (roundId now : ℤ) (draft : Store) :
    (∀ k, k ≠ getEntityIdFromKeys [roundId] →
      startRoundUpdate roundId now draft k = draft k)
    ∧ (draft (getEntityIdFromKeys [roundId]) = none →
        startRoundUpdate roundId now draft = draft)
    ∧ (∀ ent, draft (getEntityIdFromKeys [roundId]) = some ent →
        ent.models.Rounds = none → startRoundUpdate roundId now draft = draft)
    ∧ (∀ ent rm, draft (getEntityIdFromKeys [roundId]) = some ent →
        ent.models.Rounds = some rm →
        startRoundUpdate roundId now draft (getEntityIdFromKeys [roundId])
          = some (startedEntity now ent rm)) := by
  refine ⟨?_, ?_, ?_, ?_⟩
  · intro k hk
    simp only [startRoundUpdate]
    rcases hd : draft (getEntityIdFromKeys [roundId]) with _ | ent
    · simp [hd]
    · rcases hr : ent.models.Rounds with _ | rm
      · simp [hd, hr]
      · simp [hd, hr, hk]
  · intro h
    simp only [startRoundUpdate]
    simp [h]
  · intro ent h hr
    simp only [startRoundUpdate]
    simp [h, hr]
  · intro ent rm h hr
    simp only [startRoundUpdate]
    simp [h, hr, startedEntity]

/-- Witness for C10 at a concrete store: starting round 7 at time 99 on
sampleStore rewrites the sample entity to its started form, and leaves
the (absent) entity under key 8 absent. -/
theorem startRoundUpdate_frame_witness :
    startRoundUpdate 7 99 sampleStore (getEntityIdFromKeys [7])
      = some (startedEntity 99 sampleEntity { round_id := 7, round := sampleRound })
    ∧ startRoundUpdate 7 99 sampleStore (getEntityIdFromKeys [8])
      = sampleStore (getEntityIdFromKeys [8]) :=
  ⟨(startRoundUpdate_frame 7 99 sampleStore).2.2.2 sampleEntity
      { round_id := 7, round := sampleRound } rfl rfl,
   (startRoundUpdate_frame 7 99 sampleStore).1 (getEntityIdFromKeys [8]) (by decide)⟩
